import Mathlib

set_option linter.unusedSectionVars false

/-!
Verification of the fare/ETA estimation engine of the My-Ride-App repository
(`src/lib/map.ts`).

The engine is embedded shallowly over an arbitrary linear ordered field `α`
(instantiated at `ℚ` for executable claims and at `ℝ` where the haversine
helper's transcendental arithmetic matters):

* JS truthiness of a nullable number (`!x` is true for `null`, `undefined`
  and `0`) is `truthy : Option α → Bool`.
* A `fetch` + `.json()` call either throws (network / decode exception) or
  yields a parsed body whose `features` array is modelled by the list of the
  `properties.time` values of its features; `FetchResult` captures both.
  A body with a missing or empty `features` array is `ok []`.
* `Number.prototype.toFixed(2)` is modelled by `toFixed2`, returning the
  integer number of hundredths printed in the resulting 2-decimal string
  (ECMA rounds to the nearest `n / 100`, ties towards the larger `n`,
  which is Lean's `round`).
* The haversine helper `calculateDistance` uses `Math.sin`, `Math.cos`,
  `Math.atan2` and `Math.sqrt`; its exact embedding lives on `ℝ`
  (`MyRide.calculateDistance`).  The routing pipeline takes the distance
  function as an explicit parameter `dist`, exactly as the source calls the
  helper, so pipeline theorems hold for every distance function and can be
  instantiated with the real haversine.
* The concurrent fan-out (`markers.map` of async closures + `Promise.all`,
  which preserves input order) is a `List.map`; the outcome of the two
  routing calls of marker `m` is `legA m` / `legB m`; an orchestration-level
  exception caught by the outer `try`/`catch` is the flag `batchThrows`.
-/

namespace MyRide

/-- A driver marker (`MarkerData` of `@/types/type`): driver identity, a
position, and the two computed optional fields `time` (minutes) and `price`
(the 2-decimal string, represented by its value in hundredths).  The display
fields (name, rating, seat count, images) are opaque to the engine and
omitted. -/
structure MarkerData (α : Type) where
  id : ℤ
  latitude : α
  longitude : α
  time : Option α := none
  price : Option ℤ := none
deriving DecidableEq

/-- A map viewport, as returned by `calculateRegion`. -/
structure Region (α : Type) where
  latitude : α
  longitude : α
  latitudeDelta : α
  longitudeDelta : α
deriving DecidableEq

/-- Outcome of one `fetch` + `.json()` routing call: either an exception
(network I/O or JSON decoding), or a parsed body carrying the
`properties.time` values of its `features` array (empty when `features` is
missing or empty). -/
inductive FetchResult (α : Type) where
  | throws : FetchResult α
  | ok : List α → FetchResult α
deriving DecidableEq

variable {α : Type} [LinearOrderedField α] [FloorRing α]

/-- JS truthiness of a nullable number: `!x` is true exactly when `x` is
absent or equal to `0` (`NaN` is outside the model). -/
def truthy (x : Option α) : Bool :=
  match x with
  | none => false
  | some v => if v = 0 then false else true

/-- JS truthiness of a nullable string (`!geoapifyAPI`): false for an absent
or empty credential. -/
def strTruthy (s : Option String) : Bool :=
  match s with
  | none => false
  | some v => !v.isEmpty

/-- `x.toFixed(2)` as the integer number of hundredths shown in the
2-decimal string. -/
def toFixed2 (x : α) : ℤ :=
  round (x * 100)

/-- `calculateRegion` (src/lib/map.ts lines 27-73).  The literals are
`37.78825 = 151153/4000`, `-122.4324 = -(306081/2500)`, `0.01 = 1/100`,
`1.3 = 13/10`. -/
def calculateRegion
    (userLatitude userLongitude destinationLatitude destinationLongitude :
      Option α) : Region α :=
  if !truthy userLatitude || !truthy userLongitude then
    { latitude := 151153 / 4000
      longitude := -(306081 / 2500)
      latitudeDelta := 1 / 100
      longitudeDelta := 1 / 100 }
  else
    let uLat := userLatitude.getD 0
    let uLng := userLongitude.getD 0
    if !truthy destinationLatitude || !truthy destinationLongitude then
      { latitude := uLat
        longitude := uLng
        latitudeDelta := 1 / 100
        longitudeDelta := 1 / 100 }
    else
      let dLat := destinationLatitude.getD 0
      let dLng := destinationLongitude.getD 0
      let minLat := min uLat dLat
      let maxLat := max uLat dLat
      let minLng := min uLng dLng
      let maxLng := max uLng dLng
      { latitude := (uLat + dLat) / 2
        longitude := (uLng + dLng) / 2
        latitudeDelta := (maxLat - minLat) * (13 / 10)
        longitudeDelta := (maxLng - minLng) * (13 / 10) }

/-- The trip-level fallback (the per-driver `catch` body, lines 173-185, and
the body of the batch-level `catch` map, lines 196-205): time and price from
the rider→destination distance alone, at 40 km/h and $0.50 per minute. -/
def tripFallback (dist : α → α → α → α → α)
    (userLatitude userLongitude destinationLatitude destinationLongitude : α)
    (marker : MarkerData α) : MarkerData α :=
  let distance :=
    dist userLatitude userLongitude destinationLatitude destinationLongitude
  let estimatedTime := distance / 40 * 60
  { marker with
      time := some estimatedTime
      price := some (toFixed2 (estimatedTime * (1 / 2))) }

/-- One driver's task: the async closure mapped over `markers`
(src/lib/map.ts lines 104-186).  `legA` is the driver→rider call, `legB`
the rider→destination call (issued on every non-throwing path).  In the
leg-A-fallback branch the source reads
`dataToDestination.features?.[0]?.properties?.time || fallback`, so a leg-B
time of `0` is falsy and replaced; in the leg-A-success branch only
emptiness of `features` is checked and the reported time is used as-is. -/
def driverTimeTask (dist : α → α → α → α → α)
    (userLatitude userLongitude destinationLatitude destinationLongitude : α)
    (legA legB : FetchResult α) (marker : MarkerData α) : MarkerData α :=
  match legA with
  | .throws =>
      tripFallback dist userLatitude userLongitude destinationLatitude
        destinationLongitude marker
  | .ok featsA =>
    match featsA with
    | [] =>
      let distanceToUser :=
        dist marker.latitude marker.longitude userLatitude userLongitude
      let timeToUser := distanceToUser / 40 * 3600
      match legB with
      | .throws =>
          tripFallback dist userLatitude userLongitude destinationLatitude
            destinationLongitude marker
      | .ok featsB =>
        let timeToDestination :=
          match featsB with
          | [] =>
              dist userLatitude userLongitude destinationLatitude
                destinationLongitude / 40 * 3600
          | t :: _ =>
              if t = 0 then
                dist userLatitude userLongitude destinationLatitude
                  destinationLongitude / 40 * 3600
              else t
        let totalTime := (timeToUser + timeToDestination) / 60
        { marker with
            time := some totalTime
            price := some (toFixed2 (totalTime * (1 / 2))) }
    | timeToUser :: _ =>
      match legB with
      | .throws =>
          tripFallback dist userLatitude userLongitude destinationLatitude
            destinationLongitude marker
      | .ok featsB =>
        match featsB with
        | [] =>
          let timeToDestination :=
            dist userLatitude userLongitude destinationLatitude
              destinationLongitude / 40 * 3600
          let totalTime := (timeToUser + timeToDestination) / 60
          { marker with
              time := some totalTime
              price := some (toFixed2 (totalTime * (1 / 2))) }
        | timeToDestination :: _ =>
          let totalTime := (timeToUser + timeToDestination) / 60
          { marker with
              time := some totalTime
              price := some (toFixed2 (totalTime * (1 / 2))) }

/-- `calculateDriverTimes` (src/lib/map.ts lines 75-207).  The guards mirror
the source: the four-coordinate truthiness early-exit, then the credential
check; `batchThrows` models an exception escaping to the outer `catch`,
whose body maps every marker to the trip-level fallback. -/
def calculateDriverTimes (dist : α → α → α → α → α)
    (geoapifyAPI : Option String)
    (legA legB : MarkerData α → FetchResult α) (batchThrows : Bool)
    (markers : List (MarkerData α))
    (userLatitude userLongitude destinationLatitude destinationLongitude :
      Option α) : Option (List (MarkerData α)) :=
  if !truthy userLatitude || !truthy userLongitude ||
      !truthy destinationLatitude || !truthy destinationLongitude then
    none
  else if !strTruthy geoapifyAPI then
    none
  else
    let uLat := userLatitude.getD 0
    let uLng := userLongitude.getD 0
    let dLat := destinationLatitude.getD 0
    let dLng := destinationLongitude.getD 0
    if batchThrows then
      some (markers.map (tripFallback dist uLat uLng dLat dLng))
    else
      some (markers.map fun m =>
        driverTimeTask dist uLat uLng dLat dLng (legA m) (legB m) m)

/-- A sample non-empty routing credential, used to instantiate theorems. -/
def sampleKey : String := "k"

/-- `Math.atan2 y x`, as the argument of the complex number `x + y*I`. -/
noncomputable def atan2 (y x : ℝ) : ℝ :=
  Complex.arg ⟨x, y⟩

/-- The haversine helper `calculateDistance` (src/lib/map.ts lines 210-230),
in exact real arithmetic: Earth radius 6371 km. -/
noncomputable def calculateDistance (lat1 lon1 lat2 lon2 : ℝ) : ℝ :=
  let R : ℝ := 6371
  let dLat := (lat2 - lat1) * (Real.pi / 180)
  let dLon := (lon2 - lon1) * (Real.pi / 180)
  let a :=
    Real.sin (dLat / 2) * Real.sin (dLat / 2) +
      Real.cos (lat1 * (Real.pi / 180)) * Real.cos (lat2 * (Real.pi / 180)) *
        Real.sin (dLon / 2) * Real.sin (dLon / 2)
  let c := 2 * atan2 (Real.sqrt a) (Real.sqrt (1 - a))
  R * c

/-! Basic facts about JS truthiness in the embedding. -/

theorem truthy_none : truthy (none : Option α) = false :=
  rfl

theorem truthy_some_iff (v : α) : truthy (some v) = true ↔ v ≠ 0 := by
  by_cases h : v = 0 <;> simp [truthy, h]

theorem truthy_eq_true_iff (x : Option α) :
    truthy x = true ↔ ∃ v, x = some v ∧ v ≠ 0 := by
  cases x with
  | none => simp [truthy]
  | some v => by_cases h : v = 0 <;> simp [truthy, h]

/-- The literal region object returned by the rider-absent branch of
`calculateRegion` (center 37.78825, -122.4324, deltas 0.01). -/
def defaultRegion : Region α :=
  { latitude := 151153 / 4000
    longitude := -(306081 / 2500)
    latitudeDelta := 1 / 100
    longitudeDelta := 1 / 100 }

theorem calculateRegion_default_of (uLat uLng dLat dLng : Option α)
    (h : truthy uLat = false ∨ truthy uLng = false) :
    calculateRegion uLat uLng dLat dLng = defaultRegion := by
  rcases h with h | h <;> simp [calculateRegion, defaultRegion, h]

theorem calculateRegion_riderOnly_of (a b : α) (ha : a ≠ 0) (hb : b ≠ 0)
    (dLat dLng : Option α) (h : truthy dLat = false ∨ truthy dLng = false) :
    calculateRegion (some a) (some b) dLat dLng =
      { latitude := a, longitude := b
        latitudeDelta := 1 / 100, longitudeDelta := 1 / 100 } := by
  have hta := (truthy_some_iff a).mpr ha
  have htb := (truthy_some_iff b).mpr hb
  rcases h with h | h <;> simp [calculateRegion, hta, htb, h]

theorem calculateRegion_both (a b c d : α)
    (ha : a ≠ 0) (hb : b ≠ 0) (hc : c ≠ 0) (hd : d ≠ 0) :
    calculateRegion (some a) (some b) (some c) (some d) =
      { latitude := (a + c) / 2, longitude := (b + d) / 2
        latitudeDelta := (max a c - min a c) * (13 / 10)
        longitudeDelta := (max b d - min b d) * (13 / 10) } := by
  simp [calculateRegion, truthy, ha, hb, hc, hd]

/-- C4: when any of the four coordinates is missing (or zero, which JS
truthiness conflates with missing) or the routing credential is unset,
`calculateDriverTimes` exits early with no result, for every routing oracle
and every marker list: no marker is annotated and the result does not depend
on any routing response. -/
theorem calculateDriverTimes_earlyExit
    (dist : ℚ → ℚ → ℚ → ℚ → ℚ) (geoapifyAPI : Option String)
    (legA legB : MarkerData ℚ → FetchResult ℚ) (batchThrows : Bool)
    (markers : List (MarkerData ℚ)) (uLat uLng dLat dLng : Option ℚ)
    (h : truthy uLat = false ∨ truthy uLng = false ∨ truthy dLat = false ∨
      truthy dLng = false ∨ strTruthy geoapifyAPI = false) :
    calculateDriverTimes dist geoapifyAPI legA legB batchThrows markers
      uLat uLng dLat dLng = none := by
  rcases h with h | h | h | h | h <;>
    simp [calculateDriverTimes, h, ite_self]

/-- Witness for C4 at a concrete input: a missing rider latitude forces the
early exit. -/
theorem calculateDriverTimes_earlyExit_witness :
    calculateDriverTimes (fun _ _ _ _ => (0 : ℚ)) (some sampleKey)
      (fun _ => .ok []) (fun _ => .ok []) false []
      none (some 1) (some 2) (some 3) = none :=
  calculateDriverTimes_earlyExit _ _ _ _ _ _ _ _ _ _ (Or.inl rfl)

/-- C5 counterexample: with rider (1, 5) and destination (1, 6) (equal
latitudes), the produced region has `latitudeDelta = 0`, so the claimed
invariant `latitudeDelta > 0` fails. -/
theorem calculateRegion_zero_latitudeDelta :
    ¬ 0 < (calculateRegion (some (1 : ℚ)) (some 5) (some 1) (some 6)).latitudeDelta := by
  norm_num [calculateRegion, truthy]

/-- C5 amended: both deltas of every region produced by `calculateRegion`
are non-negative; they are strictly positive whenever the default or
rider-only branch is taken, and in the both-present branch a delta is
strictly positive exactly when the two points differ on that axis. -/
theorem calculateRegion_deltas_nonneg (uLat uLng dLat dLng : Option ℚ) :
    (0 ≤ (calculateRegion uLat uLng dLat dLng).latitudeDelta ∧
      0 ≤ (calculateRegion uLat uLng dLat dLng).longitudeDelta) ∧
    ((truthy uLat = false ∨ truthy uLng = false ∨ truthy dLat = false ∨
        truthy dLng = false) →
      0 < (calculateRegion uLat uLng dLat dLng).latitudeDelta ∧
      0 < (calculateRegion uLat uLng dLat dLng).longitudeDelta) ∧
    (∀ a b c d : ℚ, uLat = some a → uLng = some b → dLat = some c →
      dLng = some d → a ≠ 0 → b ≠ 0 → c ≠ 0 → d ≠ 0 →
      ((0 < (calculateRegion uLat uLng dLat dLng).latitudeDelta ↔ a ≠ c) ∧
        (0 < (calculateRegion uLat uLng dLat dLng).longitudeDelta ↔ b ≠ d))) := by
  by_cases h1 : truthy uLat = false ∨ truthy uLng = false
  · rw [calculateRegion_default_of _ _ _ _ h1]
    refine ⟨by constructor <;> norm_num [defaultRegion],
      fun _ => by constructor <;> norm_num [defaultRegion],
      fun a b c d hla hlb _ _ ha hb _ _ => ?_⟩
    exfalso
    rcases h1 with h1 | h1
    · rw [hla, (truthy_some_iff a).mpr ha] at h1; exact absurd h1 (by simp)
    · rw [hlb, (truthy_some_iff b).mpr hb] at h1; exact absurd h1 (by simp)
  · push_neg at h1
    obtain ⟨hu1, hu2⟩ := h1
    obtain ⟨a, rfl, ha⟩ := (truthy_eq_true_iff uLat).mp (Bool.not_eq_false _ |>.mp hu1)
    obtain ⟨b, rfl, hb⟩ := (truthy_eq_true_iff uLng).mp (Bool.not_eq_false _ |>.mp hu2)
    by_cases h2 : truthy dLat = false ∨ truthy dLng = false
    · rw [calculateRegion_riderOnly_of a b ha hb _ _ h2]
      refine ⟨by constructor <;> norm_num,
        fun _ => by constructor <;> norm_num,
        fun x y c d hxa hyb hlc hld _ _ hc hd => ?_⟩
      exfalso
      rcases h2 with h2 | h2
      · rw [hlc, (truthy_some_iff c).mpr hc] at h2; exact absurd h2 (by simp)
      · rw [hld, (truthy_some_iff d).mpr hd] at h2; exact absurd h2 (by simp)
    · push_neg at h2
      obtain ⟨hd1, hd2⟩ := h2
      obtain ⟨c, rfl, hc⟩ := (truthy_eq_true_iff dLat).mp (Bool.not_eq_false _ |>.mp hd1)
      obtain ⟨d, rfl, hd⟩ := (truthy_eq_true_iff dLng).mp (Bool.not_eq_false _ |>.mp hd2)
      rw [calculateRegion_both a b c d ha hb hc hd]
      have hlat : (0 : ℚ) ≤ (max a c - min a c) * (13 / 10) :=
        mul_nonneg (sub_nonneg.mpr (min_le_max)) (by norm_num)
      have hlng : (0 : ℚ) ≤ (max b d - min b d) * (13 / 10) :=
        mul_nonneg (sub_nonneg.mpr (min_le_max)) (by norm_num)
      refine ⟨⟨hlat, hlng⟩, fun habs => ?_, ?_⟩
      · exfalso
        rcases habs with h | h | h | h
        · rw [(truthy_some_iff a).mpr ha] at h; exact absurd h (by simp)
        · rw [(truthy_some_iff b).mpr hb] at h; exact absurd h (by simp)
        · rw [(truthy_some_iff c).mpr hc] at h; exact absurd h (by simp)
        · rw [(truthy_some_iff d).mpr hd] at h; exact absurd h (by simp)
      · rintro x y z w hx hy hz hw _ _ _ _
        obtain rfl : a = x := by injection hx
        obtain rfl : b = y := by injection hy
        obtain rfl : c = z := by injection hz
        obtain rfl : d = w := by injection hw
        constructor
        · rw [mul_pos_iff_of_pos_right (by norm_num : (0 : ℚ) < 13 / 10),
            sub_pos, min_lt_max]
        · rw [mul_pos_iff_of_pos_right (by norm_num : (0 : ℚ) < 13 / 10),
            sub_pos, min_lt_max]

/-- Witness for C5 amended: at rider (3, 4) and destination (5, 6) the
latitude delta is strictly positive since the latitudes differ. -/
theorem calculateRegion_deltas_nonneg_witness :
    0 < (calculateRegion (some (3 : ℚ)) (some 4) (some 5) (some 6)).latitudeDelta :=
  ((calculateRegion_deltas_nonneg (some 3) (some 4) (some 5) (some 6)).2.2
      3 4 5 6 rfl rfl rfl rfl (by norm_num) (by norm_num) (by norm_num)
      (by norm_num)).1.mpr (by norm_num)

/-- Arithmetic of the padded viewport on one axis: with center the midpoint
of `x` and `y` and full width `1.3` times their span, both `x` and `y` lie
strictly inside the half-width interval whenever `x ≠ y`. -/
theorem midpoint_padding_strict (x y : ℚ) (h : x ≠ y) :
    ((x + y) / 2 - (max x y - min x y) * (13 / 10) / 2 < x ∧
      x < (x + y) / 2 + (max x y - min x y) * (13 / 10) / 2) ∧
    ((x + y) / 2 - (max x y - min x y) * (13 / 10) / 2 < y ∧
      y < (x + y) / 2 + (max x y - min x y) * (13 / 10) / 2) := by
  rcases h.lt_or_lt with h | h
  · rw [min_eq_left h.le, max_eq_right h.le]
    refine ⟨⟨by linarith, by linarith⟩, by linarith, by linarith⟩
  · rw [min_eq_right h.le, max_eq_left h.le]
    refine ⟨⟨by linarith, by linarith⟩, by linarith, by linarith⟩

/-- C6 counterexample: rider (1, 5) and destination (1, 6) are distinct
coordinate pairs, yet the region's latitude range does not strictly contain
the common latitude 1 (the latitude delta is 0), refuting strict
containment for all distinct pairs. -/
theorem calculateRegion_boundary_not_strict :
    ((1 : ℚ), (5 : ℚ)) ≠ ((1 : ℚ), (6 : ℚ)) ∧
    ¬ ((calculateRegion (some (1 : ℚ)) (some 5) (some 1) (some 6)).latitude -
          (calculateRegion (some (1 : ℚ)) (some 5) (some 1) (some 6)).latitudeDelta / 2 < 1 ∧
        (1 : ℚ) < (calculateRegion (some (1 : ℚ)) (some 5) (some 1) (some 6)).latitude +
          (calculateRegion (some (1 : ℚ)) (some 5) (some 1) (some 6)).latitudeDelta / 2) := by
  constructor
  · simp
  · norm_num [calculateRegion, truthy]

/-- C6 amended: for present (truthy) coordinates that differ on both axes,
`calculateRegion` centers at the per-axis midpoint, takes deltas 1.3 times
the per-axis span, and its bounding box (center ± delta/2 per axis) strictly
contains both rider and destination.  (When the points differ on only one
axis the containment on the degenerate axis is not strict, per the
counterexample.) -/
theorem calculateRegion_midpoint_padding_strict (a b c d : ℚ)
    (ha : a ≠ 0) (hb : b ≠ 0) (hc : c ≠ 0) (hd : d ≠ 0)
    (hac : a ≠ c) (hbd : b ≠ d) :
    calculateRegion (some a) (some b) (some c) (some d) =
      { latitude := (a + c) / 2, longitude := (b + d) / 2
        latitudeDelta := (max a c - min a c) * (13 / 10)
        longitudeDelta := (max b d - min b d) * (13 / 10) } ∧
    ((a + c) / 2 - (max a c - min a c) * (13 / 10) / 2 < a ∧
      a < (a + c) / 2 + (max a c - min a c) * (13 / 10) / 2) ∧
    ((a + c) / 2 - (max a c - min a c) * (13 / 10) / 2 < c ∧
      c < (a + c) / 2 + (max a c - min a c) * (13 / 10) / 2) ∧
    ((b + d) / 2 - (max b d - min b d) * (13 / 10) / 2 < b ∧
      b < (b + d) / 2 + (max b d - min b d) * (13 / 10) / 2) ∧
    ((b + d) / 2 - (max b d - min b d) * (13 / 10) / 2 < d ∧
      d < (b + d) / 2 + (max b d - min b d) * (13 / 10) / 2) := by
  obtain ⟨h1, h2⟩ := midpoint_padding_strict a c hac
  obtain ⟨h3, h4⟩ := midpoint_padding_strict b d hbd
  exact ⟨calculateRegion_both a b c d ha hb hc hd, h1, h2, h3, h4⟩

/-- Witness for C6 amended at rider (1, 2), destination (3, 4): the rider's
latitude lies strictly above the box's lower latitude bound. -/
theorem calculateRegion_midpoint_padding_strict_witness :
    ((1 : ℚ) + 3) / 2 - (max (1 : ℚ) 3 - min (1 : ℚ) 3) * (13 / 10) / 2 < 1 :=
  (calculateRegion_midpoint_padding_strict 1 2 3 4 (by norm_num) (by norm_num)
      (by norm_num) (by norm_num) (by norm_num) (by norm_num)).2.1.1

/-- C8: when the rider latitude or longitude is absent, `calculateRegion`
returns the fixed default region (37.78825, -122.4324, deltas 0.01); when
the rider is present (truthy) and the destination latitude or longitude is
absent, it returns the region centered exactly on the rider with deltas
exactly 0.01. -/
theorem calculateRegion_absent_rider_or_destination :
    (∀ uLng dLat dLng : Option ℚ,
      calculateRegion none uLng dLat dLng = defaultRegion) ∧
    (∀ uLat dLat dLng : Option ℚ,
      calculateRegion uLat none dLat dLng = defaultRegion) ∧
    (∀ a b : ℚ, a ≠ 0 → b ≠ 0 → ∀ dLat dLng : Option ℚ,
      dLat = none ∨ dLng = none →
      calculateRegion (some a) (some b) dLat dLng =
        { latitude := a, longitude := b
          latitudeDelta := 1 / 100, longitudeDelta := 1 / 100 }) := by
  refine ⟨fun uLng dLat dLng => calculateRegion_default_of _ _ _ _ (Or.inl rfl),
    fun uLat dLat dLng => calculateRegion_default_of _ _ _ _ (Or.inr rfl),
    fun a b ha hb dLat dLng h => ?_⟩
  rcases h with rfl | rfl
  · exact calculateRegion_riderOnly_of a b ha hb _ _ (Or.inl rfl)
  · exact calculateRegion_riderOnly_of a b ha hb _ _ (Or.inr rfl)

/-- Witness for C8 at a concrete input: rider (3, 4) with an absent
destination latitude yields the rider-centered 0.01-delta region. -/
theorem calculateRegion_absent_rider_or_destination_witness :
    calculateRegion (some (3 : ℚ)) (some 4) none (some 5) =
      { latitude := 3, longitude := 4
        latitudeDelta := 1 / 100, longitudeDelta := 1 / 100 } :=
  calculateRegion_absent_rider_or_destination.2.2 3 4 (by norm_num)
    (by norm_num) none (some 5) (Or.inl rfl)

/-- C9: presence is decided by JS truthiness, so a coordinate equal to 0 is
treated as absent: a rider latitude of 0 yields the fixed default region, a
destination longitude of 0 yields the rider-centered 0.01-delta region, and
a 0 in any of the four coordinates makes `calculateDriverTimes` return no
result for every oracle and marker list. -/
theorem zero_coordinate_treated_absent :
    (∀ uLng dLat dLng : Option ℚ,
      calculateRegion (some 0) uLng dLat dLng = defaultRegion) ∧
    (∀ a b : ℚ, a ≠ 0 → b ≠ 0 → ∀ dLat : Option ℚ,
      calculateRegion (some a) (some b) dLat (some 0) =
        { latitude := a, longitude := b
          latitudeDelta := 1 / 100, longitudeDelta := 1 / 100 }) ∧
    (∀ (dist : ℚ → ℚ → ℚ → ℚ → ℚ) (geoapifyAPI : Option String)
      (legA legB : MarkerData ℚ → FetchResult ℚ) (batchThrows : Bool)
      (markers : List (MarkerData ℚ)) (uLat uLng dLat dLng : Option ℚ),
      uLat = some 0 ∨ uLng = some 0 ∨ dLat = some 0 ∨ dLng = some 0 →
      calculateDriverTimes dist geoapifyAPI legA legB batchThrows markers
        uLat uLng dLat dLng = none) := by
  have h0 : truthy (some (0 : ℚ)) = false := by simp [truthy]
  refine ⟨fun uLng dLat dLng => calculateRegion_default_of _ _ _ _ (Or.inl h0),
    fun a b ha hb dLat =>
      calculateRegion_riderOnly_of a b ha hb _ _ (Or.inr h0),
    fun dist key legA legB bt markers uLat uLng dLat dLng h => ?_⟩
  rcases h with rfl | rfl | rfl | rfl <;>
    simp [calculateDriverTimes, h0, ite_self]

/-- Witness for C9 at a concrete input: a destination longitude of exactly 0
(prime meridian) collapses `calculateRegion` to the rider-centered region
even though every coordinate is present. -/
theorem zero_coordinate_treated_absent_witness :
    calculateRegion (some (3 : ℚ)) (some 4) (some 5) (some 0) =
      { latitude := 3, longitude := 4
        latitudeDelta := 1 / 100, longitudeDelta := 1 / 100 } :=
  zero_coordinate_treated_absent.2.1 3 4 (by norm_num) (by norm_num) (some 5)

/-- C2: the single-driver resolver never raises and, whenever either routing
call of a marker throws (network I/O or JSON decoding), the per-marker catch
discards the partial leg results and returns the marker annotated with the
trip-level fallback: time `(dist(rider, destination) / 40) * 60` minutes —
ignoring the driver's position — and the corresponding 2-decimal price. -/
theorem driverTimeTask_catch_tripFallback (dist : ℚ → ℚ → ℚ → ℚ → ℚ)
    (a b c d : ℚ) (legA legB : FetchResult ℚ) (m : MarkerData ℚ)
    (h : legA = .throws ∨ legB = .throws) :
    driverTimeTask dist a b c d legA legB m =
      { m with
          time := some (dist a b c d / 40 * 60)
          price := some (toFixed2 (dist a b c d / 40 * 60 * (1 / 2))) } := by
  rcases h with rfl | rfl
  · simp [driverTimeTask, tripFallback]
  · cases legA with
    | throws => simp [driverTimeTask, tripFallback]
    | ok fs => cases fs <;> simp [driverTimeTask, tripFallback]

/-- Witness for C2: a marker whose first routing call throws is returned
with the trip-level fallback annotation. -/
theorem driverTimeTask_catch_tripFallback_witness :
    driverTimeTask (fun _ _ _ _ => (2 : ℚ)) 1 1 2 2 .throws (.ok [600])
      { id := 5, latitude := 3, longitude := 4 } =
      { id := 5, latitude := 3, longitude := 4
        time := some ((2 : ℚ) / 40 * 60)
        price := some (toFixed2 ((2 : ℚ) / 40 * 60 * (1 / 2))) } :=
  driverTimeTask_catch_tripFallback (fun _ _ _ _ => 2) 1 1 2 2 .throws
    (.ok [600]) { id := 5, latitude := 3, longitude := 4 } (Or.inl rfl)

/-- The North Pole represented at two different longitudes: the haversine
helper evaluates to exactly 0 there, because `cos(90°) = 0` kills the
longitude term and the latitudes agree. -/
theorem calculateDistance_pole_zero : calculateDistance 90 10 90 20 = 0 := by
  have h90 : (90 : ℝ) * (Real.pi / 180) = Real.pi / 2 := by ring
  have hs : Real.sin (((90 : ℝ) - 90) * (Real.pi / 180) / 2) = 0 := by
    rw [show ((90 : ℝ) - 90) * (Real.pi / 180) / 2 = 0 by ring, Real.sin_zero]
  have hc : Real.cos ((90 : ℝ) * (Real.pi / 180)) = 0 := by
    rw [h90, Real.cos_pi_div_two]
  have h1 : (⟨1, 0⟩ : ℂ) = 1 := Complex.ext (by simp) (by simp)
  simp only [calculateDistance, atan2, hs, hc]
  rw [show (0 : ℝ) * 0 + 0 * 0 *
      Real.sin (((20 : ℝ) - 10) * (Real.pi / 180) / 2) *
      Real.sin (((20 : ℝ) - 10) * (Real.pi / 180) / 2) = 0 by ring]
  rw [Real.sqrt_zero, show (1 : ℝ) - 0 = 1 by ring, Real.sqrt_one, h1,
    Complex.arg_one]
  ring

/-- C7 counterexample: driver position (90, 10) differs from rider position
(90, 20), yet the substituted fallback leg-A time
`(calculateDistance(driver, rider) / 40) * 3600` is exactly 0, so with leg A
empty and leg B reporting 600 s the resolver returns 600 s / 60 = 10
minutes with no leg-A contribution — the claimed "nonzero whenever the
driver's position differs from the rider's" fails. -/
theorem driverTimeTask_pole_fallback_zero :
    ((90 : ℝ), (10 : ℝ)) ≠ ((90 : ℝ), (20 : ℝ)) ∧
    calculateDistance 90 10 90 20 / 40 * 3600 = 0 ∧
    (driverTimeTask calculateDistance 90 20 37 (-121) (.ok []) (.ok [600])
        { id := 1, latitude := 90, longitude := 10 }).time = some 10 := by
  refine ⟨by simp, ?_, ?_⟩
  · rw [calculateDistance_pole_zero]; ring
  · simp only [driverTimeTask]
    rw [if_neg (by norm_num : ¬ (600 : ℝ) = 0)]
    rw [calculateDistance_pole_zero]
    norm_num

/-- C7 amended: in the partial-failure case (leg A without features, leg B
reporting 600 s) the resolver does not use 0 for leg A: it substitutes the
fallback leg-A time `(dist(driver, rider) / 40) * 3600` seconds before
summing, and that substitute is nonzero whenever the distance function is
nonzero on driver→rider (which coordinate inequality alone does not
guarantee for the haversine, per the counterexample). -/
theorem driverTimeTask_legA_fallback_substitution (dist : ℚ → ℚ → ℚ → ℚ → ℚ)
    (a b c d : ℚ) (m : MarkerData ℚ) (rest : List ℚ) :
    (driverTimeTask dist a b c d (.ok []) (.ok (600 :: rest)) m).time =
      some ((dist m.latitude m.longitude a b / 40 * 3600 + 600) / 60) ∧
    (0 < dist m.latitude m.longitude a b →
      0 < dist m.latitude m.longitude a b / 40 * 3600) := by
  constructor
  · simp [driverTimeTask, show ¬ (600 : ℚ) = 0 by norm_num]
  · intro h
    have h40 : (0 : ℚ) < dist m.latitude m.longitude a b / 40 :=
      div_pos h (by norm_num)
    exact mul_pos h40 (by norm_num)

/-- Witness for C7 amended: with a constant distance function equal to 2 the
substituted leg-A time is strictly positive. -/
theorem driverTimeTask_legA_fallback_substitution_witness :
    (driverTimeTask (fun _ _ _ _ => (2 : ℚ)) 1 1 5 5 (.ok []) (.ok [600])
        { id := 3, latitude := 7, longitude := 8 }).time =
      some (((2 : ℚ) / 40 * 3600 + 600) / 60) ∧
    (0 : ℚ) < 2 / 40 * 3600 :=
  And.imp (fun h => h) (fun h => h (by norm_num))
    (driverTimeTask_legA_fallback_substitution (fun _ _ _ _ => 2) 1 1 5 5
      { id := 3, latitude := 7, longitude := 8 } [])

/-- C10: the two branches validate leg B differently.  After a successful
leg A, a non-empty leg-B feature list with reported time 0 is used as-is
(the total is `(tA + 0) / 60`); after leg A has fallen back, the same leg-B
response hits the falsy `||` check and is replaced by the fallback estimate
`(dist(rider, destination) / 40) * 3600`, so the identical leg-B response
yields different totals depending on leg A's outcome. -/
theorem driverTimeTask_legB_zero_asymmetry (dist : ℚ → ℚ → ℚ → ℚ → ℚ)
    (a b c d : ℚ) (m : MarkerData ℚ) (ta : ℚ) (restA restB : List ℚ) :
    (driverTimeTask dist a b c d (.ok (ta :: restA)) (.ok (0 :: restB)) m).time =
      some ((ta + 0) / 60) ∧
    (driverTimeTask dist a b c d (.ok []) (.ok (0 :: restB)) m).time =
      some ((dist m.latitude m.longitude a b / 40 * 3600 +
        dist a b c d / 40 * 3600) / 60) := by
  constructor
  · simp [driverTimeTask]
  · simp [driverTimeTask]

/-- The trip-level fallback keeps the marker's identity and sets a
non-negative time together with its matching 2-decimal price. -/
theorem tripFallback_spec (dist : ℚ → ℚ → ℚ → ℚ → ℚ) (a b c d : ℚ)
    (hd : 0 ≤ dist a b c d) (m : MarkerData ℚ) :
    (tripFallback dist a b c d m).id = m.id ∧
    ∃ t, 0 ≤ t ∧ (tripFallback dist a b c d m).time = some t ∧
      (tripFallback dist a b c d m).price = some (toFixed2 (t * (1 / 2))) :=
  ⟨rfl, dist a b c d / 40 * 60,
    mul_nonneg (div_nonneg hd (by norm_num)) (by norm_num), rfl, rfl⟩

/-- Every path of the single-driver task keeps the marker's identity and
sets a non-negative time together with its matching 2-decimal price,
provided the distance function is non-negative and every reported leg time
is non-negative. -/
theorem driverTimeTask_spec (dist : ℚ → ℚ → ℚ → ℚ → ℚ)
    (hdist : ∀ p q r s, 0 ≤ dist p q r s) (a b c d : ℚ)
    (legA legB : FetchResult ℚ)
    (hA : ∀ fs, legA = .ok fs → ∀ t ∈ fs, 0 ≤ t)
    (hB : ∀ fs, legB = .ok fs → ∀ t ∈ fs, 0 ≤ t)
    (m : MarkerData ℚ) :
    (driverTimeTask dist a b c d legA legB m).id = m.id ∧
    ∃ t, 0 ≤ t ∧ (driverTimeTask dist a b c d legA legB m).time = some t ∧
      (driverTimeTask dist a b c d legA legB m).price =
        some (toFixed2 (t * (1 / 2))) := by
  have hfb : ∀ x y : ℚ, 0 ≤ dist x y a b / 40 * 3600 :=
    fun x y => mul_nonneg (div_nonneg (hdist x y a b) (by norm_num)) (by norm_num)
  have hfd : (0 : ℚ) ≤ dist a b c d / 40 * 3600 :=
    mul_nonneg (div_nonneg (hdist a b c d) (by norm_num)) (by norm_num)
  cases legA with
  | throws => exact tripFallback_spec dist a b c d (hdist a b c d) m
  | ok fsA =>
    cases fsA with
    | nil =>
      cases legB with
      | throws => exact tripFallback_spec dist a b c d (hdist a b c d) m
      | ok fsB =>
        cases fsB with
        | nil =>
          refine ⟨rfl, (dist m.latitude m.longitude a b / 40 * 3600 +
            dist a b c d / 40 * 3600) / 60, ?_, rfl, rfl⟩
          exact div_nonneg (add_nonneg (hfb _ _) hfd) (by norm_num)
        | cons t0 restB =>
          by_cases h0 : t0 = 0
          · subst h0
            refine ⟨rfl, (dist m.latitude m.longitude a b / 40 * 3600 +
              dist a b c d / 40 * 3600) / 60,
              div_nonneg (add_nonneg (hfb _ _) hfd) (by norm_num), ?_, ?_⟩ <;>
              simp [driverTimeTask]
          · have ht0 : 0 ≤ t0 := hB (t0 :: restB) rfl t0 (List.mem_cons_self _ _)
            refine ⟨rfl, (dist m.latitude m.longitude a b / 40 * 3600 + t0) / 60,
              div_nonneg (add_nonneg (hfb _ _) ht0) (by norm_num), ?_, ?_⟩ <;>
              simp [driverTimeTask, h0]
    | cons tA restA =>
      have htA : 0 ≤ tA := hA (tA :: restA) rfl tA (List.mem_cons_self _ _)
      cases legB with
      | throws => exact tripFallback_spec dist a b c d (hdist a b c d) m
      | ok fsB =>
        cases fsB with
        | nil =>
          refine ⟨rfl, (tA + dist a b c d / 40 * 3600) / 60, ?_, rfl, rfl⟩
          exact div_nonneg (add_nonneg htA hfd) (by norm_num)
        | cons tB restB =>
          have htB : 0 ≤ tB := hB (tB :: restB) rfl tB (List.mem_cons_self _ _)
          refine ⟨rfl, (tA + tB) / 60, ?_, rfl, rfl⟩
          exact div_nonneg (add_nonneg htA htB) (by norm_num)

/-- Mapping a function that preserves `id` over a marker list preserves the
list of identities. -/
theorem map_id_of_preserves {f : MarkerData ℚ → MarkerData ℚ}
    (hf : ∀ m, (f m).id = m.id) (l : List (MarkerData ℚ)) :
    (l.map f).map MarkerData.id = l.map MarkerData.id := by
  induction l with
  | nil => rfl
  | cons x xs ih => simp only [List.map_cons, hf, ih]

/-- C1: whenever the engine accepts the inputs (all four coordinates
present/truthy, credential set), `calculateDriverTimes` returns — on every
code path, routed, per-leg fallback, per-driver catch, or batch-level
catch — a list of the same length with the same driver identities in the
same order, each entry carrying a non-negative time (minutes) together with
a price equal to the time multiplied by 0.5 and rendered with exactly 2
decimals, given that the distance function and all reported leg times are
non-negative. -/
theorem calculateDriverTimes_shape_and_pricing
    (dist : ℚ → ℚ → ℚ → ℚ → ℚ) (hdist : ∀ p q r s, 0 ≤ dist p q r s)
    (geoapifyAPI : Option String) (hkey : strTruthy geoapifyAPI = true)
    (legA legB : MarkerData ℚ → FetchResult ℚ)
    (hA : ∀ m fs, legA m = .ok fs → ∀ t ∈ fs, 0 ≤ t)
    (hB : ∀ m fs, legB m = .ok fs → ∀ t ∈ fs, 0 ≤ t)
    (batchThrows : Bool) (markers : List (MarkerData ℚ))
    (a b c d : ℚ) (ha : a ≠ 0) (hb : b ≠ 0) (hc : c ≠ 0) (hd : d ≠ 0) :
    ∃ out,
      calculateDriverTimes dist geoapifyAPI legA legB batchThrows markers
        (some a) (some b) (some c) (some d) = some out ∧
      out.map MarkerData.id = markers.map MarkerData.id ∧
      ∀ r ∈ out, ∃ t, 0 ≤ t ∧ r.time = some t ∧
        r.price = some (toFixed2 (t * (1 / 2))) := by
  have hta := (truthy_some_iff a).mpr ha
  have htb := (truthy_some_iff b).mpr hb
  have htc := (truthy_some_iff c).mpr hc
  have htd := (truthy_some_iff d).mpr hd
  cases batchThrows with
  | true =>
    refine ⟨markers.map (tripFallback dist a b c d), ?_, ?_, ?_⟩
    · simp [calculateDriverTimes, hta, htb, htc, htd, hkey]
    · exact map_id_of_preserves
        (fun m => (tripFallback_spec dist a b c d (hdist a b c d) m).1) markers
    · intro r hr
      obtain ⟨m, _, rfl⟩ := List.mem_map.mp hr
      exact (tripFallback_spec dist a b c d (hdist a b c d) m).2
  | false =>
    refine ⟨markers.map fun m =>
      driverTimeTask dist a b c d (legA m) (legB m) m, ?_, ?_, ?_⟩
    · simp [calculateDriverTimes, hta, htb, htc, htd, hkey]
    · exact map_id_of_preserves
        (fun m => (driverTimeTask_spec dist hdist a b c d (legA m) (legB m)
          (hA m) (hB m) m).1) markers
    · intro r hr
      obtain ⟨m, _, rfl⟩ := List.mem_map.mp hr
      exact (driverTimeTask_spec dist hdist a b c d (legA m) (legB m)
        (hA m) (hB m) m).2

/-- Witness for C1: one concrete marker, routed leg times 300 s and 600 s,
all inputs accepted. -/
theorem calculateDriverTimes_shape_and_pricing_witness :
    ∃ out,
      calculateDriverTimes (fun _ _ _ _ => (1 : ℚ)) (some sampleKey)
        (fun _ => .ok [300]) (fun _ => .ok [600]) false
        [{ id := 7, latitude := 3, longitude := 4 }]
        (some 1) (some 1) (some 2) (some 2) = some out ∧
      out.map MarkerData.id =
        [{ id := 7, latitude := 3, longitude := 4 }].map MarkerData.id ∧
      ∀ r ∈ out, ∃ t, 0 ≤ t ∧ r.time = some t ∧
        r.price = some (toFixed2 (t * (1 / 2))) :=
  calculateDriverTimes_shape_and_pricing (fun _ _ _ _ => 1)
    (fun _ _ _ _ => by norm_num) (some sampleKey) (by decide)
    (fun _ => .ok [300]) (fun _ => .ok [600])
    (fun m fs h => by cases h; intro t ht; simp at ht; subst ht; norm_num)
    (fun m fs h => by cases h; intro t ht; simp at ht; subst ht; norm_num)
    false [{ id := 7, latitude := 3, longitude := 4 }] 1 1 2 2
    (by norm_num) (by norm_num) (by norm_num) (by norm_num)

/-- With both routing calls returning an empty feature list, the task
produces exactly the pure-geometry annotation. -/
theorem driverTimeTask_bothEmpty (dist : ℚ → ℚ → ℚ → ℚ → ℚ)
    (a b c d : ℚ) (m : MarkerData ℚ) :
    driverTimeTask dist a b c d (.ok []) (.ok []) m =
      { m with
          time := some ((dist m.latitude m.longitude a b +
            dist a b c d) / 40 * 60)
          price := some (toFixed2 ((dist m.latitude m.longitude a b +
            dist a b c d) / 40 * 60 * (1 / 2))) } := by
  have h : (dist m.latitude m.longitude a b / 40 * 3600 +
      dist a b c d / 40 * 3600) / 60 =
      (dist m.latitude m.longitude a b + dist a b c d) / 40 * 60 := by
    ring
  simp only [driverTimeTask, h]

/-- C3: if the routing client returns an empty feature list for every call,
`calculateDriverTimes` degrades to pure geometry: every marker is annotated
with time `((dist(driver, rider) + dist(rider, destination)) / 40) * 60`
minutes and the matching 2-decimal price at $0.50 per minute. -/
theorem calculateDriverTimes_allEmpty_pureGeometry
    (dist : ℚ → ℚ → ℚ → ℚ → ℚ) (geoapifyAPI : Option String)
    (hkey : strTruthy geoapifyAPI = true)
    (legA legB : MarkerData ℚ → FetchResult ℚ)
    (hA : ∀ m, legA m = .ok []) (hB : ∀ m, legB m = .ok [])
    (markers : List (MarkerData ℚ)) (a b c d : ℚ)
    (ha : a ≠ 0) (hb : b ≠ 0) (hc : c ≠ 0) (hd : d ≠ 0) :
    calculateDriverTimes dist geoapifyAPI legA legB false markers
      (some a) (some b) (some c) (some d) =
      some (markers.map fun m =>
        { m with
            time := some ((dist m.latitude m.longitude a b +
              dist a b c d) / 40 * 60)
            price := some (toFixed2 ((dist m.latitude m.longitude a b +
              dist a b c d) / 40 * 60 * (1 / 2))) }) := by
  have hta := (truthy_some_iff a).mpr ha
  have htb := (truthy_some_iff b).mpr hb
  have htc := (truthy_some_iff c).mpr hc
  have htd := (truthy_some_iff d).mpr hd
  simp only [calculateDriverTimes, hta, htb, htc, htd, hkey, Bool.not_true,
    Bool.or_self, Bool.or_false, Bool.false_or, ite_false, ite_true,
    Bool.false_eq_true, if_false, Option.getD_some]
  refine congrArg some (List.map_congr_left fun m _ => ?_)
  rw [hA m, hB m, driverTimeTask_bothEmpty]

/-- Witness for C3: one concrete marker and a constant distance function. -/
theorem calculateDriverTimes_allEmpty_pureGeometry_witness :
    calculateDriverTimes (fun _ _ _ _ => (2 : ℚ)) (some sampleKey)
      (fun _ => .ok []) (fun _ => .ok []) false
      [{ id := 9, latitude := 5, longitude := 6 }]
      (some 1) (some 1) (some 3) (some 3) =
      some (([{ id := 9, latitude := 5, longitude := 6 }] :
          List (MarkerData ℚ)).map fun m =>
        { m with
            time := some ((((fun _ _ _ _ => (2 : ℚ)) m.latitude m.longitude 1 1) +
              (fun _ _ _ _ => (2 : ℚ)) 1 1 3 3) / 40 * 60)
            price := some (toFixed2 ((((fun _ _ _ _ => (2 : ℚ)) m.latitude m.longitude 1 1) +
              (fun _ _ _ _ => (2 : ℚ)) 1 1 3 3) / 40 * 60 * (1 / 2))) }) :=
  calculateDriverTimes_allEmpty_pureGeometry (fun _ _ _ _ => 2)
    (some sampleKey) (by decide) (fun _ => .ok []) (fun _ => .ok [])
    (fun _ => rfl) (fun _ => rfl)
    [{ id := 9, latitude := 5, longitude := 6 }] 1 1 3 3
    (by norm_num) (by norm_num) (by norm_num) (by norm_num)

end MyRide
